import Mathlib

/-!
Verification of the pyqb SQL query-builder core: the expression and term
model, the criterion model, the query builder clause accumulation, and the
SQL renderer. The repository package file (src/pyqb/init) documents the
observable behaviour and re-exports the classes Query, Table, Field,
Interval and the shorthand names Q, T, Ts, F; the implementation modules
(queries, terms, enums, utils) are not part of the packaged sources, so the
data model and the renderer below are modelled from the specification of
the core, and checked against the rendered-SQL examples that the package
file itself records.
-/

namespace Pyqb

/-- Modelled from the spec: a Table names a relation and may carry an
optional alias; two Table values denote the same relation only if both
name and alias match. -/
structure Table where
  name : String
  tableAlias : Option String
deriving DecidableEq

/-- Modelled from the spec: arithmetic operators of the Arithmetic node. -/
inductive ArithOp where
  | add
  | sub
  | mul
  | div
deriving DecidableEq

/-- Modelled from the spec: comparison operators of the Comparison node. -/
inductive CompOp where
  | eq
  | ne
  | lt
  | le
  | gt
  | ge
deriving DecidableEq

/-- Modelled from the spec: boolean combinators AND, OR, XOR. -/
inductive BoolOp where
  | andB
  | orB
  | xorB
deriving DecidableEq

/-- Modelled from the spec: the order-by direction enum. -/
inductive Order where
  | asc
  | desc
deriving DecidableEq

/-- Modelled from the spec: raw literal values wrapped into terms. -/
inductive LitVal where
  | num (n : Int)
  | str (s : String)
  | boolean (b : Bool)
  | null
  | date (iso : String)
deriving DecidableEq

/-- Modelled from the spec: the components mapping of an IntervalValue,
one optional integer per unit. -/
structure IntervalComponents where
  years : Option Int
  quarters : Option Int
  months : Option Int
  weeks : Option Int
  days : Option Int
  hours : Option Int
  minutes : Option Int
  seconds : Option Int
deriving DecidableEq

/-- Modelled from the spec: the Term tagged union, with the Criterion
tags (Comparison, Between, In, BoolCombinator) included as
boolean-producing nodes of the same tree type. -/
inductive Term where
  | ref (table : Option Table) (name : String)
  | star (table : Option Table)
  | lit (v : LitVal)
  | arith (op : ArithOp) (left right : Term)
  | func (name : String) (args : List Term)
  | interval (components : IntervalComponents)
  | comp (op : CompOp) (left right : Term)
  | between (target low high : Term)
  | isin (target : Term) (candidates : List Term)
  | boolComb (op : BoolOp) (left right : Term)
  | caseWhen (branches : List (Term × Term)) (elseTerm : Option Term)

/-- Modelled from the spec: precedence class of Add and Sub is 3, of Mul
and Div is 4 (classes are ordered low to high). -/
def ArithOp.precClass : ArithOp → Nat
  | .add | .sub => 3
  | .mul | .div => 4

/-- Modelled from the spec: Sub and Div are the non-associative operators
whose right operand of equal precedence must stay parenthesized. -/
def ArithOp.rightNonAssoc : ArithOp → Bool
  | .sub | .div => true
  | .add | .mul => false

/-- Modelled from the spec: precedence class of OR and XOR is 0, of AND
is 1. -/
def BoolOp.precClass : BoolOp → Nat
  | .orB | .xorB => 0
  | .andB => 1

/-- Modelled from the spec: precedence class of a node. Comparison,
Between and In share class 2; leaves (references, literals, function
calls, intervals, case expressions) are atoms and never wrapped, which
class 6 encodes. -/
def Term.precClass : Term → Nat
  | .arith op _ _ => op.precClass
  | .comp _ _ _ => 2
  | .between _ _ _ => 2
  | .isin _ _ => 2
  | .boolComb op _ _ => op.precClass
  | _ => 6

/-- Rendered symbol of an arithmetic operator. -/
def ArithOp.symbol : ArithOp → String
  | .add => "+"
  | .sub => "-"
  | .mul => "*"
  | .div => "/"

/-- Rendered symbol of a comparison operator. -/
def CompOp.symbol : CompOp → String
  | .eq => "="
  | .ne => "<>"
  | .lt => "<"
  | .le => "<="
  | .gt => ">"
  | .ge => ">="

/-- Rendered keyword of a boolean combinator, with surrounding spaces. -/
def BoolOp.keyword : BoolOp → String
  | .andB => " AND "
  | .orB => " OR "
  | .xorB => " XOR "

/-- The single-quote character. -/
def quoteChar : Char := Char.ofNat 39

/-- The single-quote character as a string. -/
def singleQuote : String := String.mk [quoteChar]

/-- Modelled from the spec: internal quotes of string literals are escaped
by doubling. -/
def escapeQuotes (s : String) : String :=
  String.mk (s.data.foldr (fun c acc => if c = quoteChar then c :: c :: acc else c :: acc) [])

/-- Uppercase a name character by character. -/
def upperName (s : String) : String :=
  String.mk (s.data.map Char.toUpper)

/-- Modelled from the spec: literal rendering. Strings are single-quoted,
numbers render in decimal, booleans as TRUE and FALSE, null as NULL,
dates as a quoted ISO form. -/
def LitVal.render : LitVal → String
  | .num n => toString n
  | .str s => singleQuote ++ escapeQuotes s ++ singleQuote
  | .boolean b => if b then "TRUE" else "FALSE"
  | .null => "NULL"
  | .date iso => singleQuote ++ iso ++ singleQuote

/-- One INTERVAL n UNIT fragment for a present component. -/
def intervalPart (unit : String) (v : Option Int) : List String :=
  match v with
  | none => []
  | some n => ["INTERVAL " ++ toString n ++ " " ++ unit]

/-- Modelled from the spec: interval components chain as separate INTERVAL
terms joined by a plus sign. -/
def IntervalComponents.render (c : IntervalComponents) : String :=
  String.intercalate "+"
    (intervalPart "YEAR" c.years ++ intervalPart "QUARTER" c.quarters
      ++ intervalPart "MONTH" c.months ++ intervalPart "WEEK" c.weeks
      ++ intervalPart "DAY" c.days ++ intervalPart "HOUR" c.hours
      ++ intervalPart "MINUTE" c.minutes ++ intervalPart "SECOND" c.seconds)

/-- Wrap a rendered string in parentheses when the flag is set. -/
def parenIf (b : Bool) (s : String) : String :=
  if b then "(" ++ s ++ ")" else s

/-- Modelled from the spec: a child is wrapped iff its precedence class is
strictly lower than the parent one, or equal while the child stands on
the right side of a non-associative operator. -/
def needsParens (childPrec parentPrec : Nat) (rightOfNonAssoc : Bool) : Bool :=
  decide (childPrec < parentPrec) || (decide (childPrec = parentPrec) && rightOfNonAssoc)

/-- Look up the alias assigned to a table in an alias environment. -/
def lookupAlias (env : List (Table × String)) (t : Table) : Option String :=
  match env.find? (fun p => decide (p.1 = t)) with
  | none => none
  | some p => some p.2

mutual

/-- Modelled from the spec: the renderer tree walk over terms. References
qualify with the alias in scope, the star sentinel renders as a plain or
qualified star, operators apply the precedence-aware parenthesization
rule at every parent-child edge. -/
def Term.render (env : List (Table × String)) : Term → String
  | .ref t n =>
    match t.bind (lookupAlias env) with
    | some a => a ++ "." ++ n
    | none => n
  | .star t =>
    match t.bind (lookupAlias env) with
    | some a => a ++ ".*"
    | none => "*"
  | .lit v => v.render
  | .interval c => c.render
  | .func name args =>
    upperName name ++ "(" ++ String.intercalate "," (Term.renderList env args) ++ ")"
  | .arith op l r =>
    parenIf (needsParens l.precClass op.precClass false) (Term.render env l)
      ++ op.symbol
      ++ parenIf (needsParens r.precClass op.precClass op.rightNonAssoc) (Term.render env r)
  | .comp op l r =>
    parenIf (needsParens l.precClass 2 false) (Term.render env l)
      ++ op.symbol
      ++ parenIf (needsParens r.precClass 2 false) (Term.render env r)
  | .between t lo hi =>
    parenIf (needsParens t.precClass 2 false) (Term.render env t)
      ++ " BETWEEN "
      ++ parenIf (needsParens lo.precClass 2 false) (Term.render env lo)
      ++ " AND "
      ++ parenIf (needsParens hi.precClass 2 false) (Term.render env hi)
  | .isin t cs =>
    parenIf (needsParens t.precClass 2 false) (Term.render env t)
      ++ " IN (" ++ String.intercalate "," (Term.renderList env cs) ++ ")"
  | .boolComb op l r =>
    parenIf (needsParens l.precClass op.precClass false) (Term.render env l)
      ++ op.keyword
      ++ parenIf (needsParens r.precClass op.precClass false) (Term.render env r)
  | .caseWhen bs e =>
    "CASE" ++ String.join (Term.renderBranches env bs)
      ++ (match e with
          | none => ""
          | some t => " ELSE " ++ Term.render env t)
      ++ " END"

/-- Render a list of terms, one string per term. -/
def Term.renderList (env : List (Table × String)) : List Term → List String
  | [] => []
  | t :: ts => Term.render env t :: Term.renderList env ts

/-- Render the WHEN-THEN branches of a case expression. -/
def Term.renderBranches (env : List (Table × String)) : List (Term × Term) → List String
  | [] => []
  | (c, t) :: bs =>
    (" WHEN " ++ Term.render env c ++ " THEN " ++ Term.render env t) :: Term.renderBranches env bs

end

mutual

/-- Tables referenced by the references and stars of a term tree. -/
def Term.tables : Term → List Table
  | .ref (some t) _ => [t]
  | .ref none _ => []
  | .star (some t) => [t]
  | .star none => []
  | .lit _ => []
  | .interval _ => []
  | .arith _ l r => l.tables ++ r.tables
  | .func _ args => Term.tablesList args
  | .comp _ l r => l.tables ++ r.tables
  | .between t lo hi => t.tables ++ lo.tables ++ hi.tables
  | .isin t cs => t.tables ++ Term.tablesList cs
  | .boolComb _ l r => l.tables ++ r.tables
  | .caseWhen bs e =>
    Term.tablesBranches bs
      ++ (match e with
          | none => []
          | some t => t.tables)

/-- Tables referenced anywhere in a list of terms. -/
def Term.tablesList : List Term → List Table
  | [] => []
  | t :: ts => t.tables ++ Term.tablesList ts

/-- Tables referenced anywhere in case branches. -/
def Term.tablesBranches : List (Term × Term) → List Table
  | [] => []
  | (c, t) :: bs => c.tables ++ t.tables ++ Term.tablesBranches bs

end

/-- The Field constructor of the source package: an unqualified column
reference. -/
def Field (name : String) : Term := .ref none name

/-- Attribute-style access on a table yields a reference scoped to that
table, the explicit lookup method of the spec. -/
def Table.field (t : Table) (name : String) : Term := .ref (some t) name

/-- The star accessor of a table: the all-columns sentinel reference. -/
def Table.star (t : Table) : Term := Term.star (some t)

/-- The Table constructor applied to a bare name, as the string shorthand
of the builder does. -/
def mkTable (name : String) : Table := ⟨name, none⟩

/-- The make_tables helper of the source package: several tables from
name strings in one call. -/
def make_tables (names : List String) : List Table := names.map mkTable

/-- Modelled from the spec: a validated IntervalValue wraps the components
mapping; the smart constructor below enforces the exclusivity invariant. -/
structure IntervalValue where
  components : IntervalComponents
deriving DecidableEq

/-- Number of components present in an interval components mapping. -/
def IntervalComponents.presentCount (c : IntervalComponents) : Nat :=
  ([c.years, c.quarters, c.months, c.weeks, c.days, c.hours, c.minutes,
    c.seconds].filter Option.isSome).length

/-- Modelled from the spec: the Interval constructor of the source package.
If weeks or quarters is present, no other component may be present;
violations fail at construction time. -/
def Interval (c : IntervalComponents) : Except String IntervalValue :=
  if (c.weeks.isSome || c.quarters.isSome) && decide (1 < c.presentCount) then
    Except.error "IntervalError: weeks and quarters must be used individually"
  else
    Except.ok ⟨c⟩

/-- Modelled from the spec: a registered join is a table together with its
on-criterion. -/
structure Join where
  table : Table
  criterion : Term

/-- Modelled from the spec: a selected term with the optional alias set by
the aliasing operation, used only in the SELECT list. -/
structure SelectItem where
  term : Term
  termAlias : Option String

/-- A plain select entry with no alias. -/
def Term.sel (t : Term) : SelectItem := ⟨t, none⟩

/-- The aliasing operation: it sets the alias carried into a SELECT
list. -/
def Term.as_ (t : Term) (a : String) : SelectItem := ⟨t, some a⟩

/-- Modelled from the spec: the accumulated builder state of a Query. -/
structure Query where
  source : Table
  joins : List Join
  selects : List SelectItem
  wheres : List Term
  groupBys : List Term
  orderBys : List (Term × Order)
  distinct : Bool

/-- Designating the source table creates a fresh builder with every clause
list empty. -/
def Query.from_ (t : Table) : Query :=
  ⟨t, [], [], [], [], [], false⟩

/-- The select operation appends to the selects list in call order. -/
def Query.select (q : Query) (ts : List SelectItem) : Query :=
  { q with selects := q.selects ++ ts }

/-- The where operation appends the criterion to the wheres list. -/
def Query.where_ (q : Query) (c : Term) : Query :=
  { q with wheres := q.wheres ++ [c] }

/-- The groupby operation appends to the group-by list. -/
def Query.groupby (q : Query) (ts : List Term) : Query :=
  { q with groupBys := q.groupBys ++ ts }

/-- The orderby operation appends terms with their direction. -/
def Query.orderby (q : Query) (ts : List (Term × Order)) : Query :=
  { q with orderBys := q.orderBys ++ ts }

/-- The distinct operation sets the distinct flag. -/
def Query.distinctOn (q : Query) : Query :=
  { q with distinct := true }

/-- Modelled from the spec: the Joiner capability returned by join, holding
the untouched builder and the table to be joined; its only operation is
the on method below. -/
structure Joiner where
  query : Query
  table : Table

/-- Calling join returns a Joiner and registers nothing by itself. -/
def Query.join (q : Query) (t : Table) : Joiner := ⟨q, t⟩

/-- The tables already registered on a query: the source, then the joined
tables in append order. -/
def Query.registeredTables (q : Query) : List Table :=
  q.source :: q.joins.map Join.table

/-- Whether a term references a given table. -/
def Term.referencesTable (c : Term) (t : Table) : Bool :=
  c.tables.any (fun x => decide (x = t))

/-- Whether a term references at least one table of a given list. -/
def Term.referencesAnyOf (c : Term) (ts : List Table) : Bool :=
  c.tables.any (fun x => ts.any (fun r => decide (r = x)))

/-- Whether a criterion references the newly joined table and at least one
already-registered table, every referenced table being one of those. -/
def Joiner.validOn (j : Joiner) (crit : Term) : Bool :=
  crit.referencesTable j.table
    && crit.referencesAnyOf j.query.registeredTables
    && crit.tables.all (fun t =>
        decide (t = j.table) || j.query.registeredTables.any (fun r => decide (r = t)))

/-- Modelled from the spec: the on method validates the criterion and only
then registers the join; an invalid criterion raises a JoiningError-kind
failure and registers nothing. -/
def Joiner.on (j : Joiner) (crit : Term) : Except String Query :=
  if j.validOn crit then
    Except.ok { j.query with joins := j.query.joins ++ [⟨j.table, crit⟩] }
  else
    Except.error "JoinException: criterion must link the joined table to a registered table"

/-- Sequential alias names t0, t1, t2 and so on. -/
def aliasName (i : Nat) : String := "t" ++ toString i

/-- Modelled from the spec: with one or more joins, the source table takes
alias t0 and the joined tables take t1, t2, and so on in append order;
with zero joins no aliasing occurs. -/
def Query.aliasEnv (q : Query) : List (Table × String) :=
  match q.joins with
  | [] => []
  | _ => (q.source, aliasName 0)
      :: q.joins.enum.map (fun p => (p.2.table, aliasName (p.1 + 1)))

/-- Render one SELECT-list entry: the term, then one space and the alias
identifier when an alias is carried, with no AS keyword. -/
def renderSelectItem (env : List (Table × String)) (s : SelectItem) : String :=
  Term.render env s.term
    ++ (match s.termAlias with
        | none => ""
        | some a => " " ++ a)

/-- Modelled from the spec: the where entries are combined with AND, left
to right. -/
def combineWheres : List Term → Option Term
  | [] => none
  | w :: ws => some (ws.foldl (Term.boolComb .andB) w)

/-- The rendered WHERE fragment of a query, empty when no where was
added. -/
def Query.whereFragment (q : Query) : String :=
  match combineWheres q.wheres with
  | none => ""
  | some c => " WHERE " ++ Term.render q.aliasEnv c

/-- Rendered keyword of an order direction. -/
def Order.keyword : Order → String
  | .asc => " ASC"
  | .desc => " DESC"

/-- Modelled from the spec: render a completed query with the clause order
SELECT, FROM, JOIN, WHERE, GROUP BY, ORDER BY; an empty select list
renders a star, lists are comma-separated without spaces. -/
def Query.render (q : Query) : String :=
  let env := q.aliasEnv
  "SELECT "
    ++ (if q.distinct then "DISTINCT " else "")
    ++ (match q.selects with
        | [] => "*"
        | ss => String.intercalate "," (ss.map (renderSelectItem env)))
    ++ " FROM " ++ q.source.name
    ++ (match lookupAlias env q.source with
        | none => ""
        | some a => " " ++ a)
    ++ String.join (q.joins.enum.map (fun p =>
         " JOIN " ++ p.2.table.name ++ " " ++ aliasName (p.1 + 1)
           ++ " ON " ++ Term.render env p.2.criterion))
    ++ q.whereFragment
    ++ (match q.groupBys with
        | [] => ""
        | gs => " GROUP BY " ++ String.intercalate "," (gs.map (Term.render env)))
    ++ (match q.orderBys with
        | [] => ""
        | os => " ORDER BY "
            ++ String.intercalate "," (os.map (fun p => Term.render env p.1 ++ p.2.keyword)))

/-- Render a query twice from the same unmodified builder state. -/
def Query.renderTwice (q : Query) : String × String :=
  (q.render, q.render)

/-- The package root binds the short name Q to Query; its entry point is
the same from_ operation. -/
def Q.from_ : Table → Query := Query.from_

/-- The package root binds the short name T to Table. -/
def T : String → Option String → Table := Table.mk

/-- The package root binds the short name Ts to make_tables. -/
def Ts : List String → List Table := make_tables

/-- The package root binds the short name F to Field. -/
def F : String → Term := Field

/-- The table named table from the arithmetic examples of the package
file. -/
def tableTbl : Table := mkTable "table"

/-- The customers table from the filtering examples of the package file. -/
def customersTbl : Table := mkTable "customers"

/-- The history table from the join example of the package file. -/
def historyTbl : Table := mkTable "history"

/-- The accounts table from the alias example of the package file. -/
def accountsTbl : Table := mkTable "accounts"

/-- The arithmetic example query of the package file: five arithmetic
select terms over the table named table. -/
def arithExample : Query :=
  (Query.from_ tableTbl).select
    [ Term.sel (.arith .add (tableTbl.field "foo") (tableTbl.field "bar"))
    , Term.sel (.arith .sub (tableTbl.field "foo") (tableTbl.field "bar"))
    , Term.sel (.arith .mul (tableTbl.field "foo") (tableTbl.field "bar"))
    , Term.sel (.arith .div (tableTbl.field "foo") (tableTbl.field "bar"))
    , Term.sel (.arith .div (.arith .add (tableTbl.field "foo") (tableTbl.field "bar"))
        (tableTbl.field "fiz")) ]

/-- The on-criterion of the join example: history.customer_id equals
customers.id. -/
def joinCrit : Term :=
  .comp .eq (historyTbl.field "customer_id") (customersTbl.field "id")

/-- The join example builder step: join customers onto the history query
and call on with the linking criterion. -/
def joinBase : Except String Query :=
  ((Query.from_ historyTbl).join customersTbl).on joinCrit

/-- The query registered by the successful on call of the join example. -/
def joinOk : Query :=
  match joinBase with
  | .ok q => q
  | .error _ => Query.from_ historyTbl

/-- The complete join example query of the package file: select
history.star and filter on customers.id equal to five. -/
def joinExample : Query :=
  (joinOk.select [Term.sel historyTbl.star]).where_
    (.comp .eq (customersTbl.field "id") (.lit (.num 5)))

/-- The multiple-where example query of the package file. -/
def multiWhereExample : Query :=
  ((Query.from_ customersTbl).select
      ([customersTbl.field "id", customersTbl.field "fname", customersTbl.field "lname",
        customersTbl.field "phone"].map Term.sel)
    |>.where_ (.comp .eq (customersTbl.field "fname") (.lit (.str "Max")))
    |>.where_ (.comp .eq (customersTbl.field "lname") (.lit (.str "Mustermann"))))

/-- The standalone BETWEEN-and-IN criterion of the filtering example. -/
def betweenInCrit : Term :=
  .boolComb .andB
    (.between (customersTbl.field "age") (.lit (.num 18)) (.lit (.num 65)))
    (.isin (customersTbl.field "status") [.lit (.str "new"), .lit (.str "active")])

/-- The profit alias example query of the package file. -/
def profitExample : Query :=
  (Query.from_ accountsTbl).select
    [(Term.arith .sub (accountsTbl.field "revenue") (accountsTbl.field "cost")).as_ "profit"]

theorem string_append_assoc3 (a b c : String) : a ++ (b ++ c) = a ++ b ++ c :=
  (String.append_assoc a b c).symm

theorem arithOp_rightNonAssoc_eq (op : ArithOp) :
    op.rightNonAssoc = (decide (op = ArithOp.sub) || decide (op = ArithOp.div)) := by
  cases op <;> rfl

/-- C1: in the renderer, for every expression tree, a child node is
wrapped in parentheses iff its precedence class is strictly lower than
the parent one, or equal to the parent one while the child is the right
operand of Sub or Div; in particular the sum of foo and bar divided by
fiz renders as (foo+bar)/fiz while the plain sum renders as foo+bar, and
the arithmetic example query of the package file renders exactly as its
documented SQL. -/
theorem pyqb_c1 :
    (∀ (env : List (Table × String)) (op : ArithOp) (l r : Term),
        Term.render env (Term.arith op l r)
          = parenIf (decide (l.precClass < op.precClass)) (Term.render env l)
            ++ op.symbol
            ++ parenIf (decide (r.precClass < op.precClass)
                || (decide (r.precClass = op.precClass)
                    && (decide (op = ArithOp.sub) || decide (op = ArithOp.div))))
              (Term.render env r))
    ∧ (∀ (env : List (Table × String)) (op : BoolOp) (l r : Term),
        Term.render env (Term.boolComb op l r)
          = parenIf (decide (l.precClass < op.precClass)) (Term.render env l)
            ++ op.keyword
            ++ parenIf (decide (r.precClass < op.precClass)) (Term.render env r))
    ∧ (∀ (env : List (Table × String)) (op : CompOp) (l r : Term),
        Term.render env (Term.comp op l r)
          = parenIf (decide (l.precClass < 2)) (Term.render env l)
            ++ op.symbol
            ++ parenIf (decide (r.precClass < 2)) (Term.render env r))
    ∧ (∀ (env : List (Table × String)) (t lo hi : Term),
        Term.render env (Term.between t lo hi)
          = parenIf (decide (t.precClass < 2)) (Term.render env t)
            ++ " BETWEEN " ++ parenIf (decide (lo.precClass < 2)) (Term.render env lo)
            ++ " AND " ++ parenIf (decide (hi.precClass < 2)) (Term.render env hi))
    ∧ Term.render [] (Term.arith .div
        (Term.arith .add (tableTbl.field "foo") (tableTbl.field "bar"))
        (tableTbl.field "fiz")) = "(foo+bar)/fiz"
    ∧ Term.render [] (Term.arith .add (tableTbl.field "foo") (tableTbl.field "bar"))
        = "foo+bar"
    ∧ arithExample.render
        = "SELECT foo+bar,foo-bar,foo*bar,foo/bar,(foo+bar)/fiz FROM table" := by
  refine ⟨?_, ?_, ?_, ?_, rfl, rfl, rfl⟩
  · intro env op l r
    simp [Term.render, needsParens, arithOp_rightNonAssoc_eq, string_append_assoc3]
  · intro env op l r
    simp [Term.render, needsParens, string_append_assoc3]
  · intro env op l r
    simp [Term.render, needsParens, string_append_assoc3]
  · intro env t lo hi
    simp [Term.render, needsParens, string_append_assoc3]

/-- C2: with at least one join, rendering assigns sequential aliases t0,
t1, t2 and so on with the source table first and then the joined tables
in append order, qualifies every reference whose table carries one of
those aliases, renders a star reference of the source table as the
source alias followed by a star, and with zero joins references render
unqualified; the join example of the package file renders exactly as
documented. -/
theorem pyqb_c2 :
    (∀ q : Query, q.joins.isEmpty = false →
        q.aliasEnv = (q.source, "t0")
          :: q.joins.enum.map (fun p => (p.2.table, "t" ++ toString (p.1 + 1))))
    ∧ (∀ (env : List (Table × String)) (t : Table) (n a : String),
        lookupAlias env t = some a →
        Term.render env (Term.ref (some t) n) = a ++ "." ++ n)
    ∧ (∀ q : Query, q.joins.isEmpty = false →
        Term.render q.aliasEnv (Term.star (some q.source)) = "t0.*")
    ∧ (∀ q : Query, q.joins = [] →
        (∀ (t : Table) (n : String), Term.render q.aliasEnv (Term.ref (some t) n) = n)
        ∧ (∀ t : Table, Term.render q.aliasEnv (Term.star (some t)) = "*"))
    ∧ (∃ q : Query, joinBase = Except.ok q)
    ∧ joinExample.render
        = "SELECT t0.* FROM history t0 JOIN customers t1 ON t0.customer_id=t1.id WHERE t1.id=5" := by
  refine ⟨?_, ?_, ?_, ?_, ⟨joinOk, rfl⟩, rfl⟩
  · intro q h
    cases hj : q.joins with
    | nil => rw [hj] at h; simp at h
    | cons j js =>
      simp [Query.aliasEnv, hj, aliasName]
      rfl
  · intro env t n a h
    simp [Term.render, Option.bind, h]
  · intro q h
    cases hj : q.joins with
    | nil => rw [hj] at h; simp at h
    | cons j js =>
      simp [Term.render, Query.aliasEnv, hj, lookupAlias, List.find?, aliasName]
      rfl
  · intro q h
    refine ⟨?_, ?_⟩ <;> intros <;>
      simp [Term.render, Query.aliasEnv, h, lookupAlias, List.find?]

/-- C3: join registers nothing by itself, on appends exactly one join with
its criterion after completing successfully, and a criterion that does
not reference both the newly joined table and an already-registered
table makes on fail with a JoiningError-kind failure, so no join is
registered. -/
theorem pyqb_c3 :
    (∀ (q : Query) (t : Table), (q.join t).query = q ∧ (q.join t).table = t)
    ∧ (∀ (j : Joiner) (c : Term) (q2 : Query), j.on c = Except.ok q2 →
        q2.joins = j.query.joins ++ [⟨j.table, c⟩])
    ∧ (∀ (j : Joiner) (c : Term),
        ¬ (c.referencesTable j.table = true
            ∧ c.referencesAnyOf j.query.registeredTables = true) →
        ∃ msg, j.on c = Except.error msg) := by
  refine ⟨fun q t => ⟨rfl, rfl⟩, ?_, ?_⟩
  · intro j c q2 h
    unfold Joiner.on at h
    split at h
    · injection h with h2
      rw [← h2]
    · exact Except.noConfusion h
  · intro j c h
    by_cases hv : j.validOn c
    · exfalso
      apply h
      unfold Joiner.validOn at hv
      simp only [Bool.and_eq_true] at hv
      exact ⟨hv.1.1, hv.1.2⟩
    · have he : j.on c
          = Except.error
              "JoinException: criterion must link the joined table to a registered table" := by
        simp [Joiner.on, hv]
      exact ⟨_, he⟩

/-- C4: calling where twice appends both criteria in call order, and the
rendered WHERE clause joins them with AND in left-to-right call order;
the multiple-where example of the package file renders exactly as
documented. -/
theorem pyqb_c4 :
    (∀ (q : Query) (A B : Term),
        ((q.where_ A).where_ B).wheres = q.wheres ++ [A, B])
    ∧ (∀ (q : Query) (A B : Term), q.wheres = [] →
        ((q.where_ A).where_ B).whereFragment
          = " WHERE " ++ parenIf (decide (A.precClass = 0)) (Term.render q.aliasEnv A)
            ++ " AND " ++ parenIf (decide (B.precClass = 0)) (Term.render q.aliasEnv B))
    ∧ multiWhereExample.render
        = "SELECT id,fname,lname,phone FROM customers WHERE fname=\x27Max\x27 AND lname=\x27Mustermann\x27" := by
  refine ⟨?_, ?_, rfl⟩
  · intro q A B
    simp [Query.where_]
  · intro q A B h
    simp [Query.whereFragment, Query.where_, Query.aliasEnv, h, combineWheres,
      Term.render, needsParens, BoolOp.keyword, BoolOp.precClass, Nat.lt_one_iff,
      string_append_assoc3]

/-- C5: constructing an IntervalValue whose components include weeks or
quarters together with any other component fails with a construction
error, in particular weeks with months; weeks alone, quarters alone, or
any combination of the remaining components succeeds. -/
theorem pyqb_c5 :
    (∃ msg, Interval ⟨none, none, some 1, some 1, none, none, none, none⟩
        = Except.error msg)
    ∧ (∀ n : Int, Interval ⟨none, none, none, some n, none, none, none, none⟩
        = Except.ok ⟨⟨none, none, none, some n, none, none, none, none⟩⟩)
    ∧ (∀ n : Int, Interval ⟨none, some n, none, none, none, none, none, none⟩
        = Except.ok ⟨⟨none, some n, none, none, none, none, none, none⟩⟩)
    ∧ (∀ y m d h mi s : Option Int, Interval ⟨y, none, m, none, d, h, mi, s⟩
        = Except.ok ⟨⟨y, none, m, none, d, h, mi, s⟩⟩)
    ∧ (∀ c : IntervalComponents,
        (c.weeks.isSome || c.quarters.isSome) = true → 1 < c.presentCount →
        ∃ msg, Interval c = Except.error msg) := by
  refine ⟨⟨_, rfl⟩, ?_, ?_, ?_, ?_⟩
  · intro n
    simp [Interval, IntervalComponents.presentCount]
  · intro n
    simp [Interval, IntervalComponents.presentCount]
  · intro y m d h mi s
    simp [Interval]
  · intro c h1 h2
    have he : Interval c
        = Except.error "IntervalError: weeks and quarters must be used individually" := by
      simp [Interval, h1, h2]
    exact ⟨_, he⟩

/-- Witness for C2: the alias assignment, reference qualification, star
rendering and unqualified rendering facts evaluated on the concrete join
example and on a concrete zero-join query. -/
theorem pyqb_c2_witness :
    joinExample.joins.isEmpty = false
    ∧ joinExample.aliasEnv = (joinExample.source, "t0")
        :: joinExample.joins.enum.map (fun p => (p.2.table, "t" ++ toString (p.1 + 1)))
    ∧ lookupAlias joinExample.aliasEnv customersTbl = some "t1"
    ∧ Term.render joinExample.aliasEnv (Term.ref (some customersTbl) "id") = "t1.id"
    ∧ Term.render joinExample.aliasEnv (Term.star (some joinExample.source)) = "t0.*"
    ∧ (Query.from_ customersTbl).joins = []
    ∧ Term.render (Query.from_ customersTbl).aliasEnv (Term.ref (some customersTbl) "id")
        = "id" :=
  ⟨rfl, pyqb_c2.1 joinExample rfl, rfl,
    pyqb_c2.2.1 joinExample.aliasEnv customersTbl "id" "t1" rfl,
    pyqb_c2.2.2.1 joinExample rfl, rfl,
    (pyqb_c2.2.2.2.1 (Query.from_ customersTbl) rfl).1 customersTbl "id"⟩

/-- Witness for C3: the join of the package example registers nothing by
itself, its successful on call appends exactly the one join, and an on
call whose criterion references no registered table fails. -/
theorem pyqb_c3_witness :
    ((Query.from_ historyTbl).join customersTbl).query = Query.from_ historyTbl
    ∧ joinBase = Except.ok joinOk
    ∧ joinOk.joins = (Query.from_ historyTbl).joins ++ [⟨customersTbl, joinCrit⟩]
    ∧ ¬ ((Field "x").referencesTable ((Query.from_ historyTbl).join customersTbl).table
            = true
          ∧ (Field "x").referencesAnyOf
              ((Query.from_ historyTbl).join customersTbl).query.registeredTables = true)
    ∧ (∃ msg, ((Query.from_ historyTbl).join customersTbl).on (Field "x")
        = Except.error msg) :=
  ⟨(pyqb_c3.1 (Query.from_ historyTbl) customersTbl).1, rfl,
    pyqb_c3.2.1 ((Query.from_ historyTbl).join customersTbl) joinCrit joinOk rfl,
    by decide,
    pyqb_c3.2.2 ((Query.from_ historyTbl).join customersTbl) (Field "x") (by decide)⟩

/-- Witness for C4: the two-where rendering fact evaluated on the concrete
multiple-where criteria of the package example. -/
theorem pyqb_c4_witness :
    (Query.from_ customersTbl).wheres = []
    ∧ (((Query.from_ customersTbl).where_
            (Term.comp .eq (customersTbl.field "fname") (Term.lit (.str "Max")))).where_
          (Term.comp .eq (customersTbl.field "lname")
            (Term.lit (.str "Mustermann")))).whereFragment
        = " WHERE "
          ++ parenIf
              (decide ((Term.comp .eq (customersTbl.field "fname")
                  (Term.lit (.str "Max"))).precClass = 0))
              (Term.render (Query.from_ customersTbl).aliasEnv
                (Term.comp .eq (customersTbl.field "fname") (Term.lit (.str "Max"))))
          ++ " AND "
          ++ parenIf
              (decide ((Term.comp .eq (customersTbl.field "lname")
                  (Term.lit (.str "Mustermann"))).precClass = 0))
              (Term.render (Query.from_ customersTbl).aliasEnv
                (Term.comp .eq (customersTbl.field "lname")
                  (Term.lit (.str "Mustermann")))) :=
  ⟨rfl, pyqb_c4.2.1 (Query.from_ customersTbl)
    (Term.comp .eq (customersTbl.field "fname") (Term.lit (.str "Max")))
    (Term.comp .eq (customersTbl.field "lname") (Term.lit (.str "Mustermann"))) rfl⟩

/-- Witness for C5: the general exclusivity failure evaluated on the
concrete combination of weeks with days. -/
theorem pyqb_c5_witness :
    ((⟨none, none, none, some 1, some 2, none, none, none⟩ :
        IntervalComponents).weeks.isSome
      || (⟨none, none, none, some 1, some 2, none, none, none⟩ :
        IntervalComponents).quarters.isSome) = true
    ∧ 1 < (⟨none, none, none, some 1, some 2, none, none, none⟩ :
        IntervalComponents).presentCount
    ∧ (∃ msg, Interval ⟨none, none, none, some 1, some 2, none, none, none⟩
        = Except.error msg) :=
  ⟨rfl, by decide,
    pyqb_c5.2.2.2.2 ⟨none, none, none, some 1, some 2, none, none, none⟩ rfl (by decide)⟩

/-- C6: the standalone rendering of the criterion combining age between 18
and 65 with status in the set of new and active is exactly the documented
string, with no parentheses around the BETWEEN or IN operands of the AND
combinator. -/
theorem pyqb_c6 :
    Term.render [] betweenInCrit
      = "age BETWEEN 18 AND 65 AND status IN (\x27new\x27,\x27active\x27)" := rfl

/-- C7: the query selecting revenue minus cost from the account table
renders exactly the documented string. -/
theorem pyqb_c7 :
    ((Query.from_ (mkTable "account")).select
        [Term.sel (Term.arith .sub (Field "revenue") (Field "cost"))]).render
      = "SELECT revenue-cost FROM account" := rfl

/-- C8: a selected term carrying an alias renders as the term, one space
and the alias identifier with no AS keyword; in particular the profit
example of the package file renders as documented. -/
theorem pyqb_c8 :
    (∀ (env : List (Table × String)) (t : Term) (a : String),
        renderSelectItem env ⟨t, some a⟩ = Term.render env t ++ " " ++ a)
    ∧ (∀ (env : List (Table × String)) (t : Term) (a : String),
        renderSelectItem env (t.as_ a) = Term.render env t ++ " " ++ a)
    ∧ profitExample.render = "SELECT revenue-cost profit FROM accounts" := by
  refine ⟨?_, ?_, rfl⟩
  · intro env t a
    simp [renderSelectItem, string_append_assoc3]
  · intro env t a
    simp [renderSelectItem, Term.as_, string_append_assoc3]

/-- C9: rendering is deterministic and side-effect free on the query;
converting the same unmodified query to a string twice yields two
identical strings. -/
theorem pyqb_c9 : ∀ q : Query, q.renderTwice.1 = q.renderTwice.2 :=
  fun _ => rfl

/-- C10: the package root binds the short names Q, T, Ts and F to the very
same Query entry point, Table constructor, make_tables helper and Field
constructor, so short-name and long-name construction produce equal trees
and identical rendered SQL. -/
theorem pyqb_c10 :
    Q.from_ = Query.from_
    ∧ T = Table.mk
    ∧ Ts = make_tables
    ∧ F = Field
    ∧ (Q.from_ (T "customers" none)).select [Term.sel (F "id")]
        = (Query.from_ (Table.mk "customers" none)).select [Term.sel (Field "id")]
    ∧ ((Q.from_ (T "customers" none)).select [Term.sel (F "id")]).render
        = ((Query.from_ (Table.mk "customers" none)).select [Term.sel (Field "id")]).render
    ∧ ((Q.from_ (T "customers" none)).select [Term.sel (F "id")]).render
        = "SELECT id FROM customers" :=
  ⟨rfl, rfl, rfl, rfl, rfl, rfl, rfl⟩

end Pyqb
